import Mathlib

/-!
Shallow embedding of the alert-triage core of the CIMB-Security-System2
repository: the `AlertAnalyzer` class (AlertAnalyzer.js) and the
`useAlertMonitoring` hook (SecurityAnalystView.jsx / ManagerView.jsx, the
"Alert Stream Coordinator").

Conventions of the embedding:
* JS numbers that only ever hold integers (timestamps, ids, scores,
  connection counts) are `ℤ` or `ℕ`; telemetry readings and the downtime
  risk, where division occurs, are `ℚ`.
* JS strings are `List Char`; `String.prototype.toLowerCase` is a `Char.toLower`
  map and `String.prototype.includes` is the `containsSub` scan below.
* `Date.now()` is an explicit `now : ℤ` parameter threaded to every function
  of the source that reads the clock.
* The string-valued reporting fields of the analysis object (`reasons`,
  `recommendation`, `affectedSystems`) are not modelled: no claim refers to
  them, and they do not feed back into any score, flag or classification.
-/

-- The Batteries rational-number operations are `@[irreducible]`, which
-- blocks `decide` on concrete telemetry arithmetic; re-expose them within
-- this development so that concrete assessments evaluate.
section

attribute [local semireducible] Rat.mul Rat.add Rat.inv Rat.sub

/-- Character-wise ASCII lowercasing, the `List Char` image of
JS `String.prototype.toLowerCase` on the ASCII vocabulary used here. -/
def toLowerList (s : List Char) : List Char := s.map Char.toLower

/-- Predicate `leadsIn needle hay` holds when `needle` occurs at the very front of
`hay` (the prefix test underlying a substring scan). -/
def leadsIn : List Char → List Char → Bool
  | [], _ => true
  | _ :: _, [] => false
  | a :: as, b :: bs => a == b && leadsIn as bs

/-- Scan `containsSub needle hay` is JS `hay.includes(needle)`: `needle` occurs
contiguously somewhere in `hay`. -/
def containsSub (needle : List Char) : List Char → Bool
  | [] => leadsIn needle []
  | c :: rest => leadsIn needle (c :: rest) || containsSub needle rest

/-- An alert record as consumed by `AlertAnalyzer.analyzeAlert`
(AlertAnalyzer.js): id, type, message, severity, creation timestamp. -/
structure Alert where
  id : ℕ
  type : List Char
  message : List Char
  severity : List Char
  timestamp : ℤ
deriving DecidableEq

/-- A traffic telemetry point; only the fields the analyzer reads are
modelled (`outbound`/`threats` are never consumed by the core). -/
structure TrafficSample where
  timestamp : ℤ
  inbound : ℚ
  cpu_usage : ℚ
  memory_usage : ℚ
  packet_loss : ℚ
deriving DecidableEq

/-- A blocked access attempt; the analyzer only reads its timestamp. -/
structure BlockedAttempt where
  timestamp : ℤ
deriving DecidableEq

/-- Aggregate system statistics; the analyzer only reads
`activeConnections`. -/
structure SystemStats where
  activeConnections : ℤ
deriving DecidableEq

/-- The five-valued impact level of the data model: `minimal` is the initial
value of the analysis object in `analyzeAlert`; `calculateImpactLevel`
produces the other four. -/
inductive ImpactLevel
  | minimal
  | low
  | medium
  | high
  | critical
deriving DecidableEq

/-- The priority tier produced by `calculatePriority`. -/
inductive Priority
  | low
  | medium
  | high
  | critical
deriving DecidableEq

/-- The analysis object built by `analyzeAlert` (the RiskAssessment), with
its numeric, flag and classification fields. -/
structure RiskAssessment where
  requiresPopup : Bool
  priority : Priority
  riskScore : ℕ
  impactLevel : ImpactLevel
  estimatedDowntimeRisk : ℚ
deriving DecidableEq

-- `this.thresholds` of the AlertAnalyzer constructor.

/-- Threshold: 3+ high severity alerts in short time. -/
def highSeverityBurst : ℕ := 3

/-- Threshold: 5 minutes window, in milliseconds. -/
def criticalTimeWindow : ℤ := 300000

/-- Threshold: 10+ blocked attempts in 5 min. -/
def blockedAttemptsBurst : ℕ := 10

/-- Threshold: traffic 3x normal. -/
def trafficSpikeMultiplier : ℚ := 3

/-- Threshold: CPU usage > 90%. -/
def cpuThreshold : ℚ := 90

/-- Threshold: memory usage > 90%. -/
def memoryThreshold : ℚ := 90

/-- Constructor field `this.criticalTypes`: alert categories requiring immediate attention. -/
def criticalTypes : List (List Char) :=
  [ ("DDoS Attack").data,
    ("Data Breach Attempt").data,
    ("Ransomware Alert").data,
    ("System Compromise").data,
    ("Unauthorized Root Access").data,
    ("Critical Service Down").data,
    ("Database Connection Lost").data,
    ("Firewall Disabled").data,
    ("Multiple System Failures").data ]

/-- Constructor field `this.systemImpactKeywords`: keywords that indicate system-wide impact. -/
def systemImpactKeywords : List (List Char) :=
  [ ("system down").data,
    ("service unavailable").data,
    ("complete failure").data,
    ("network outage").data,
    ("database crashed").data,
    ("critical error").data,
    ("all users affected").data,
    ("widespread impact").data,
    ("infrastructure failure").data,
    ("total loss").data ]

/-- Factor 1 of `calculateRiskFactors`: the severity lookup table with its
`|| 5` default for unrecognized severities. -/
def severityScore (severity : List Char) : ℕ :=
  if severity = ("high").data then 25
  else if severity = ("medium").data then 10
  else if severity = ("low").data then 5
  else 5

/-- Factor 2 count of `calculateRiskFactors`: recent alerts with
`severity === 'high'` and `(Date.now() - a.timestamp) < criticalTimeWindow`. -/
def highSeverityCount (now : ℤ) (recentAlerts : List Alert) : ℕ :=
  (recentAlerts.filter fun a =>
    (a.severity == ("high").data) && decide (now - a.timestamp < criticalTimeWindow)).length

/-- Factor 4 count of `calculateRiskFactors`: blocked attempts with
`(Date.now() - b.timestamp) < criticalTimeWindow`. -/
def recentBlockedCount (now : ℤ) (blockedAttempts : List BlockedAttempt) : ℕ :=
  (blockedAttempts.filter fun b =>
    decide (now - b.timestamp < criticalTimeWindow)).length

/-- The running mean of `inbound` over the traffic window, as computed by
`trafficData.reduce((sum, t) => sum + t.inbound, 0) / trafficData.length`. -/
def trafficAverage (trafficData : List TrafficSample) : ℚ :=
  (trafficData.map TrafficSample.inbound).sum / trafficData.length

/-- Embeds `AlertAnalyzer.calculateRiskFactors`: the `totalScore` accumulated from
factor 1 (severity), factor 2 (high-severity burst, +20), factor 3 (system
load, +10), factor 4 (blocked-attempt burst, +15) and, when the traffic
window is non-empty, factor 5 (traffic spike, +15) and the CPU/memory
checks (+10 each). -/
def calculateRiskFactors (now : ℤ) (newAlert : Alert) (recentAlerts : List Alert)
    (systemStats : SystemStats) (trafficData : List TrafficSample)
    (blockedAttempts : List BlockedAttempt) : ℕ :=
  let severityFactor := severityScore newAlert.severity
  let burstFactor : ℕ :=
    if highSeverityBurst ≤ highSeverityCount now recentAlerts then 20 else 0
  let loadFactor : ℕ :=
    if 500 < systemStats.activeConnections then 10 else 0
  let blockedFactor : ℕ :=
    if blockedAttemptsBurst ≤ recentBlockedCount now blockedAttempts then 15 else 0
  match trafficData with
  | [] => severityFactor + burstFactor + loadFactor + blockedFactor
  | latest :: rest =>
    let spikeFactor : ℕ :=
      if trafficAverage (latest :: rest) * trafficSpikeMultiplier < latest.inbound
      then 15 else 0
    let cpuFactor : ℕ := if cpuThreshold < latest.cpu_usage then 10 else 0
    let memoryFactor : ℕ := if memoryThreshold < latest.memory_usage then 10 else 0
    severityFactor + burstFactor + loadFactor + blockedFactor +
      spikeFactor + cpuFactor + memoryFactor

/-- Embeds `AlertAnalyzer.isCriticalAlertType`: some critical type substring occurs
case-insensitively in the alert's type. -/
def isCriticalAlertType (alert : Alert) : Bool :=
  criticalTypes.any fun t => containsSub (toLowerList t) (toLowerList alert.type)

/-- Embeds `AlertAnalyzer.hasSystemWideImpact`: some system-impact keyword occurs
case-insensitively in the alert's message. -/
def hasSystemWideImpact (alert : Alert) : Bool :=
  systemImpactKeywords.any fun k => containsSub (toLowerList k) (toLowerList alert.message)

/-- Embeds `AlertAnalyzer.detectAlertBurst` reduced to its `isBurst` flag: 3 or
more recent alerts of the same type within the time window (the returned
`count`/`timeWindow` fields only feed the reason string). -/
def detectAlertBurst (now : ℤ) (newAlert : Alert) (recentAlerts : List Alert) : Bool :=
  let recentSimilar := recentAlerts.filter fun a =>
    (a.type == newAlert.type) && decide (now - a.timestamp < criticalTimeWindow)
  decide (3 ≤ recentSimilar.length)

/-- The result of `AlertAnalyzer.analyzeSystemResources`, without the
`reason`/`affectedSystems` report strings. -/
structure ResourceAnalysis where
  critical : Bool
  riskIncrease : ℕ
deriving DecidableEq

/-- Embeds `AlertAnalyzer.analyzeSystemResources`: sequential mutation of the
analysis object — CPU > 90 sets `critical` and `riskIncrease = 15`,
memory > 90 adds 15, packet loss > 5 adds 10; empty traffic returns the
untouched object. -/
def analyzeSystemResources (_systemStats : SystemStats)
    (trafficData : List TrafficSample) : ResourceAnalysis :=
  match trafficData with
  | [] => { critical := false, riskIncrease := 0 }
  | latest :: _ =>
    let analysis : ResourceAnalysis := { critical := false, riskIncrease := 0 }
    let analysis :=
      if cpuThreshold < latest.cpu_usage then
        { critical := true, riskIncrease := 15 }
      else analysis
    let analysis :=
      if memoryThreshold < latest.memory_usage then
        { critical := true, riskIncrease := analysis.riskIncrease + 15 }
      else analysis
    let analysis :=
      if (5 : ℚ) < latest.packet_loss then
        { critical := true, riskIncrease := analysis.riskIncrease + 10 }
      else analysis
    analysis

/-- Embeds `AlertAnalyzer.detectCoordinatedAttack` reduced to its `detected` flag:
recent high/medium alerts plus a third of the recent blocked attempts reach
8 events (the `description`/`confidence` fields are informational only). -/
def detectCoordinatedAttack (now : ℤ) (_newAlert : Alert) (recentAlerts : List Alert)
    (blockedAttempts : List BlockedAttempt) : Bool :=
  let recentTime := now - criticalTimeWindow
  let recentSecurityAlerts := (recentAlerts.filter fun a =>
    ((a.severity == ("high").data) || (a.severity == ("medium").data)) &&
      decide (recentTime < a.timestamp)).length
  let recentBlocked := (blockedAttempts.filter fun b =>
    decide (recentTime < b.timestamp)).length
  let totalEvents := recentSecurityAlerts + recentBlocked / 3
  decide (8 ≤ totalEvents)

/-- Embeds `AlertAnalyzer.calculateImpactLevel`: thresholds 80/60/40. -/
def calculateImpactLevel (riskScore : ℕ) : ImpactLevel :=
  if 80 ≤ riskScore then ImpactLevel.critical
  else if 60 ≤ riskScore then ImpactLevel.high
  else if 40 ≤ riskScore then ImpactLevel.medium
  else ImpactLevel.low

/-- Embeds `AlertAnalyzer.calculatePriority`: thresholds 75/55/35. -/
def calculatePriority (riskScore : ℕ) : Priority :=
  if 75 ≤ riskScore then Priority.critical
  else if 55 ≤ riskScore then Priority.high
  else if 35 ≤ riskScore then Priority.medium
  else Priority.low

/-- Embeds `AlertAnalyzer.calculateDowntimeRisk`:
`((riskScore/100) * 0.6 + (0.3 if resources critical)) * 100`, capped at 95. -/
def calculateDowntimeRisk (riskScore : ℕ) (resourceAnalysis : ResourceAnalysis) : ℚ :=
  let downtimeRisk : ℚ := ((riskScore : ℚ) / 100) * (6 / 10)
  let downtimeRisk :=
    if resourceAnalysis.critical then downtimeRisk + 3 / 10 else downtimeRisk
  min (downtimeRisk * 100) 95

/-- Embeds `AlertAnalyzer.analyzeAlert`: builds the initial analysis object
(priority low, score 0, impact `minimal`), accumulates the risk score from
`calculateRiskFactors`, the critical-type (+30), system-wide-impact (+25),
alert-burst (+20), resource (`riskIncrease` when critical) and
coordinated-attack (+25) additions, then derives impact level, priority,
downtime risk and the popup flag. -/
def analyzeAlert (now : ℤ) (newAlert : Alert) (recentAlerts : List Alert)
    (systemStats : SystemStats) (trafficData : List TrafficSample)
    (blockedAttempts : List BlockedAttempt) : RiskAssessment :=
  let analysis : RiskAssessment :=
    { requiresPopup := false
      priority := Priority.low
      riskScore := 0
      impactLevel := ImpactLevel.minimal
      estimatedDowntimeRisk := 0 }
  let score := calculateRiskFactors now newAlert recentAlerts systemStats
    trafficData blockedAttempts
  let score := if isCriticalAlertType newAlert then score + 30 else score
  let score := if hasSystemWideImpact newAlert then score + 25 else score
  let score := if detectAlertBurst now newAlert recentAlerts then score + 20 else score
  let resourceAnalysis := analyzeSystemResources systemStats trafficData
  let score := if resourceAnalysis.critical then score + resourceAnalysis.riskIncrease else score
  let score := if detectCoordinatedAttack now newAlert recentAlerts blockedAttempts
    then score + 25 else score
  { analysis with
      riskScore := score
      impactLevel := calculateImpactLevel score
      priority := calculatePriority score
      estimatedDowntimeRisk :=
        calculateDowntimeRisk score (analyzeSystemResources systemStats trafficData)
      requiresPopup :=
        decide (60 ≤ score) || decide (calculatePriority score = Priority.critical) }

/-- JS `Math.round` on the non-negative rationals produced here:
round half up, `⌊q + 1/2⌋`. -/
def jsRound (q : ℚ) : ℤ := ⌊q + 1 / 2⌋

/-- The rounded `analysis` object attached to a notification by
`AlertAnalyzer.formatAlertForDisplay` (`reasons`/`recommendation`/
`affectedSystems` are carried along unchanged and not modelled). -/
structure DisplayAnalysis where
  riskScore : ℕ
  priority : Priority
  impactLevel : ImpactLevel
  requiresPopup : Bool
  estimatedDowntimeRisk : ℤ
  analyzedAt : ℤ
deriving DecidableEq

/-- A notification of the `useAlertMonitoring` hook: the formatted alert
(`{...alert, analysis}`) spread together with the `read` flag the hook adds
when prepending to the list. -/
structure Notification where
  alert : Alert
  analysis : DisplayAnalysis
  read : Bool
deriving DecidableEq

/-- Embeds `AlertAnalyzer.formatAlertForDisplay` followed by the hook's
`{...formattedAlert, read: false}` spread: the alert, its rounded analysis
(stamped with `analyzedAt = Date.now()`), and `read = false`. -/
def formatAlertForDisplay (now : ℤ) (alert : Alert) (analysis : RiskAssessment) :
    Notification :=
  { alert := alert
    analysis :=
      { riskScore := analysis.riskScore
        priority := analysis.priority
        impactLevel := analysis.impactLevel
        requiresPopup := analysis.requiresPopup
        estimatedDowntimeRisk := jsRound analysis.estimatedDowntimeRisk
        analyzedAt := now }
    read := false }

/-- The state owned by the `useAlertMonitoring` hook: the notification list
(newest first) and the seen-set of processed alert ids. A JS `Set` built by
`new Set([...prev, id])` preserves insertion order, so the seen-set is a
duplicate-free list in insertion order (oldest first). -/
structure CoordState where
  notifications : List Notification
  processedAlertIds : List ℕ
deriving DecidableEq

/-- One delivery from the external event source: the clock reading and the
four context collections passed to the hook. -/
structure Env where
  now : ℤ
  alerts : List Alert
  trafficData : List TrafficSample
  blockedAttempts : List BlockedAttempt
  systemStats : SystemStats
deriving DecidableEq

/-- The seen-set trimming effect of `useAlertMonitoring`: once the set
exceeds 100 entries, keep `Array.from(set).slice(-100)` — the 100
most-recently-added ids. -/
def trimProcessedIds (ids : List ℕ) : List ℕ :=
  if 100 < ids.length then ids.drop (ids.length - 100) else ids

/-- The notification built for the newest alert of a delivery: the
classification of `analyzeAlert` over the bounded context windows
(`alerts.slice(0, 20)`, `trafficData.slice(0, 20)`,
`blockedAttempts.slice(0, 50)`), formatted for display. -/
def newNotification (env : Env) (latestAlert : Alert) : Notification :=
  let analysis := analyzeAlert env.now latestAlert (env.alerts.take 20)
    env.systemStats (env.trafficData.take 20) (env.blockedAttempts.take 50)
  formatAlertForDisplay env.now latestAlert analysis

/-- One step of the `useAlertMonitoring` hook (the Coordinator) on a
delivery: nothing happens on an empty feed or an already-seen newest alert;
otherwise the newest alert is classified over the bounded context windows,
its id appended to the seen-set (then trimmed), and the formatted
notification prepended to the list truncated at 50. -/
def coordStep (st : CoordState) (env : Env) : CoordState :=
  match env.alerts with
  | [] => st
  | latestAlert :: _ =>
    if latestAlert.id ∈ st.processedAlertIds then st
    else
      { processedAlertIds := trimProcessedIds (st.processedAlertIds ++ [latestAlert.id])
        notifications := (newNotification env latestAlert :: st.notifications).take 50 }

/-- Modelled from the spec: the risk total as enumerated by §4.1 of the
specification, which lists the resource-exhaustion contributions as
"+10 per condition" (CPU, memory, packet loss) inside a resource sub-total
and does not include the separate +15/+15 resource-analysis additions of
the source. This definition follows the spec's words; it is the comparison
side of the refinement claims about the factor sum, not an embedding of
the source. -/
def specRiskScore (now : ℤ) (newAlert : Alert) (recentAlerts : List Alert)
    (systemStats : SystemStats) (trafficData : List TrafficSample)
    (blockedAttempts : List BlockedAttempt) : ℕ :=
  severityScore newAlert.severity +
  (if highSeverityBurst ≤ highSeverityCount now recentAlerts then 20 else 0) +
  (if 500 < systemStats.activeConnections then 10 else 0) +
  (if blockedAttemptsBurst ≤ recentBlockedCount now blockedAttempts then 15 else 0) +
  (match trafficData with
   | [] => 0
   | latest :: rest =>
     (if trafficAverage (latest :: rest) * trafficSpikeMultiplier < latest.inbound
      then 15 else 0) +
     (if cpuThreshold < latest.cpu_usage then 10 else 0) +
     (if memoryThreshold < latest.memory_usage then 10 else 0) +
     (if (5 : ℚ) < latest.packet_loss then 10 else 0)) +
  (if isCriticalAlertType newAlert then 30 else 0) +
  (if hasSystemWideImpact newAlert then 25 else 0) +
  (if detectAlertBurst now newAlert recentAlerts then 20 else 0) +
  (if detectCoordinatedAttack now newAlert recentAlerts blockedAttempts then 25 else 0)

/-- The list of the independent additive contributions the source actually
accumulates into `riskScore`, one entry per factor: severity,
high-severity burst (+20), connection load (+10), blocked burst (+15),
then — on a non-empty traffic window — traffic spike (+15), the +10 CPU and
+10 memory checks of `calculateRiskFactors` and the +15 CPU / +15 memory /
+10 packet-loss additions of `analyzeSystemResources`, then critical type
(+30), system-wide keyword (+25), same-type burst (+20) and coordinated
attack (+25). -/
def factorList (now : ℤ) (newAlert : Alert) (recentAlerts : List Alert)
    (systemStats : SystemStats) (trafficData : List TrafficSample)
    (blockedAttempts : List BlockedAttempt) : List ℕ :=
  [ severityScore newAlert.severity,
    if highSeverityBurst ≤ highSeverityCount now recentAlerts then 20 else 0,
    if 500 < systemStats.activeConnections then 10 else 0,
    if blockedAttemptsBurst ≤ recentBlockedCount now blockedAttempts then 15 else 0 ]
  ++ (match trafficData with
      | [] => [0, 0, 0, 0, 0, 0]
      | latest :: rest =>
        [ if trafficAverage (latest :: rest) * trafficSpikeMultiplier < latest.inbound
          then 15 else 0,
          if cpuThreshold < latest.cpu_usage then 10 else 0,
          if memoryThreshold < latest.memory_usage then 10 else 0,
          if cpuThreshold < latest.cpu_usage then 15 else 0,
          if memoryThreshold < latest.memory_usage then 15 else 0,
          if (5 : ℚ) < latest.packet_loss then 10 else 0 ])
  ++ [ if isCriticalAlertType newAlert then 30 else 0,
       if hasSystemWideImpact newAlert then 25 else 0,
       if detectAlertBurst now newAlert recentAlerts then 20 else 0,
       if detectCoordinatedAttack now newAlert recentAlerts blockedAttempts then 25 else 0 ]

/-- Timestamp translation on an alert, for the clock-relativity analysis. -/
def shiftAlert (d : ℤ) (a : Alert) : Alert :=
  { a with timestamp := a.timestamp + d }

/-- Timestamp translation on a blocked attempt. -/
def shiftBlocked (d : ℤ) (b : BlockedAttempt) : BlockedAttempt :=
  { b with timestamp := b.timestamp + d }

-- Concrete inputs reused by counterexamples and witnesses.

/-- A low-severity alert whose type and message match no critical type and
no system-impact keyword. -/
def lowAlert : Alert :=
  { id := 7, type := ("Port Scan").data, message := ("scan detected").data,
    severity := ("low").data, timestamp := 0 }

/-- A traffic sample whose only firing resource condition is CPU > 90. -/
def cpuTraffic95 : TrafficSample :=
  { timestamp := 0, inbound := 0, cpu_usage := 95, memory_usage := 50, packet_loss := 0 }

/-- A quiet system-stats snapshot (100 active connections). -/
def stats100 : SystemStats := { activeConnections := 100 }

-- Bridge lemmas relating the accumulated score to its factor decomposition.

/-- On a non-empty traffic window, the resource analysis accumulates
+15 for CPU, +15 for memory and +10 for packet loss. -/
lemma analyzeSystemResources_riskIncrease (ss : SystemStats) (latest : TrafficSample)
    (rest : List TrafficSample) :
    (analyzeSystemResources ss (latest :: rest)).riskIncrease =
      (if cpuThreshold < latest.cpu_usage then 15 else 0) +
      (if memoryThreshold < latest.memory_usage then 15 else 0) +
      (if (5 : ℚ) < latest.packet_loss then 10 else 0) := by
  simp only [analyzeSystemResources]
  split_ifs <;> rfl

/-- The resource analysis flags `critical` exactly when one of its three
conditions fires. -/
lemma analyzeSystemResources_critical_iff (ss : SystemStats) (latest : TrafficSample)
    (rest : List TrafficSample) :
    (analyzeSystemResources ss (latest :: rest)).critical = true ↔
      (cpuThreshold < latest.cpu_usage ∨ memoryThreshold < latest.memory_usage ∨
        (5 : ℚ) < latest.packet_loss) := by
  simp only [analyzeSystemResources]
  split_ifs <;> simp_all

/-- When the resource analysis is not critical, its risk increase is zero
(so gating the addition on `critical` never drops a non-zero increase). -/
lemma analyzeSystemResources_not_critical (ss : SystemStats) (td : List TrafficSample)
    (h : (analyzeSystemResources ss td).critical = false) :
    (analyzeSystemResources ss td).riskIncrease = 0 := by
  cases td with
  | nil => simp [analyzeSystemResources]
  | cons latest rest =>
    simp only [analyzeSystemResources] at h ⊢
    split_ifs at h ⊢
    simp_all

/-- The risk score returned by `analyzeAlert` decomposes into the
`calculateRiskFactors` total plus the five later additions, the resource
one contributing exactly its `riskIncrease`. -/
lemma analyzeAlert_riskScore (now : ℤ) (a : Alert) (ra : List Alert)
    (ss : SystemStats) (td : List TrafficSample) (ba : List BlockedAttempt) :
    (analyzeAlert now a ra ss td ba).riskScore =
      calculateRiskFactors now a ra ss td ba
      + (if isCriticalAlertType a then 30 else 0)
      + (if hasSystemWideImpact a then 25 else 0)
      + (if detectAlertBurst now a ra then 20 else 0)
      + (analyzeSystemResources ss td).riskIncrease
      + (if detectCoordinatedAttack now a ra ba then 25 else 0) := by
  cases hc : (analyzeSystemResources ss td).critical with
  | false =>
    have h0 := analyzeSystemResources_not_critical ss td hc
    simp only [analyzeAlert, hc]
    split_ifs <;> omega
  | true =>
    simp only [analyzeAlert, hc]
    split_ifs <;> omega

/-- The factor list sums to exactly the risk score of the assessment. -/
lemma sum_factorList (now : ℤ) (a : Alert) (ra : List Alert)
    (ss : SystemStats) (td : List TrafficSample) (ba : List BlockedAttempt) :
    (factorList now a ra ss td ba).sum = (analyzeAlert now a ra ss td ba).riskScore := by
  rw [analyzeAlert_riskScore]
  cases td with
  | nil =>
    simp only [factorList, calculateRiskFactors, analyzeSystemResources,
      List.sum_append, List.sum_cons, List.sum_nil]
    omega
  | cons latest rest =>
    rw [analyzeSystemResources_riskIncrease]
    simp only [factorList, calculateRiskFactors, List.sum_append, List.sum_cons,
      List.sum_nil]
    omega

-- Claim C1

/-- C1 (counterexample): at a concrete input whose only context signal is a
CPU reading of 95%, the code's risk score is 30, while the sum of the ten
factors as enumerated in spec §4.1 (base severity 5 plus a +10 resource
condition) is 15 — so `riskScore` does not equal the §4.1 factor sum. -/
theorem C1_counterexample :
    (analyzeAlert 0 lowAlert [] stats100 [cpuTraffic95] []).riskScore = 30 ∧
    specRiskScore 0 lowAlert [] stats100 [cpuTraffic95] [] = 15 ∧
    (analyzeAlert 0 lowAlert [] stats100 [cpuTraffic95] []).riskScore ≠
      specRiskScore 0 lowAlert [] stats100 [cpuTraffic95] [] := by
  refine ⟨by decide, by decide, by decide⟩

/-- C1 (amended): for every input, `riskScore` is the exact sum of the
independently additive factors the code accumulates — base severity
25/10/5, high-severity burst +20, connection load +10, blocked-attempt
burst +15, traffic spike +15, critical type +30, system-wide keyword +25,
same-type burst +20, coordinated attack +25, and resource contributions of
+10 plus +15 for CPU > 90, +10 plus +15 for memory > 90 and +10 for packet
loss > 5 — and permuting the evaluation order of the factors yields the
same total. -/
theorem C1_riskScore_factor_sum_order_independent
    (now : ℤ) (newAlert : Alert) (recentAlerts : List Alert)
    (systemStats : SystemStats) (trafficData : List TrafficSample)
    (blockedAttempts : List BlockedAttempt) (l : List ℕ)
    (hperm : l.Perm (factorList now newAlert recentAlerts systemStats trafficData
      blockedAttempts)) :
    l.sum = (analyzeAlert now newAlert recentAlerts systemStats trafficData
      blockedAttempts).riskScore := by
  rw [hperm.sum_eq]
  exact sum_factorList now newAlert recentAlerts systemStats trafficData blockedAttempts

/-- Witness for C1 (amended): the reversed factor list of a concrete input
is a permutation of the factor list and sums to the concrete risk score. -/
theorem C1_witness :
    ((factorList 0 lowAlert [] stats100 [cpuTraffic95] []).reverse).sum =
      (analyzeAlert 0 lowAlert [] stats100 [cpuTraffic95] []).riskScore ∧
    (analyzeAlert 0 lowAlert [] stats100 [cpuTraffic95] []).riskScore = 30 :=
  ⟨C1_riskScore_factor_sum_order_independent 0 lowAlert [] stats100 [cpuTraffic95] []
      _ (List.reverse_perm _),
    by decide⟩

-- Claim C2

/-- C2 (counterexample): with `recentTraffic[0].cpu_usage = 95` and the
other two conditions quiet, the resource analysis contributes 15, not 10,
and the resulting risk score is 30, not the 15 (severity 5 + resource 10)
the claim requires. -/
theorem C2_counterexample :
    (analyzeSystemResources stats100 [cpuTraffic95]).riskIncrease = 15 ∧
    (analyzeSystemResources stats100 [cpuTraffic95]).riskIncrease ≠ 10 ∧
    (analyzeAlert 0 lowAlert [] stats100 [cpuTraffic95] []).riskScore = 30 ∧
    (analyzeAlert 0 lowAlert [] stats100 [cpuTraffic95] []).riskScore ≠ 15 := by
  refine ⟨by decide, by decide, by decide, by decide⟩

/-- C2 (amended): on a non-empty traffic window the resource analysis
sub-total is +15 if `cpu_usage > 90`, plus +15 if `memory_usage > 90`,
plus +10 if `packet_loss > 5` (at most 40), `critical` is set exactly when
one of the three fires, and this sub-total is added to the risk score
exactly once per classification — on top of the independent +10 CPU and
+10 memory additions inside `calculateRiskFactors`. -/
theorem C2_resource_subtotal (ss : SystemStats) (latest : TrafficSample)
    (rest : List TrafficSample) (now : ℤ) (a : Alert) (ra : List Alert)
    (ba : List BlockedAttempt) :
    (analyzeSystemResources ss (latest :: rest)).riskIncrease =
      (if cpuThreshold < latest.cpu_usage then 15 else 0) +
      (if memoryThreshold < latest.memory_usage then 15 else 0) +
      (if (5 : ℚ) < latest.packet_loss then 10 else 0) ∧
    (analyzeSystemResources ss (latest :: rest)).riskIncrease ≤ 40 ∧
    ((analyzeSystemResources ss (latest :: rest)).critical = true ↔
      (cpuThreshold < latest.cpu_usage ∨ memoryThreshold < latest.memory_usage ∨
        (5 : ℚ) < latest.packet_loss)) ∧
    (analyzeAlert now a ra ss (latest :: rest) ba).riskScore =
      calculateRiskFactors now a ra ss (latest :: rest) ba
      + (if isCriticalAlertType a then 30 else 0)
      + (if hasSystemWideImpact a then 25 else 0)
      + (if detectAlertBurst now a ra then 20 else 0)
      + (analyzeSystemResources ss (latest :: rest)).riskIncrease
      + (if detectCoordinatedAttack now a ra ba then 25 else 0) := by
  refine ⟨analyzeSystemResources_riskIncrease ss latest rest, ?_,
    analyzeSystemResources_critical_iff ss latest rest,
    analyzeAlert_riskScore now a ra ss (latest :: rest) ba⟩
  rw [analyzeSystemResources_riskIncrease]
  split_ifs <;> omega

-- Claim C5

/-- C5: for every input, the returned `requiresPopup` flag is true exactly
when the returned `riskScore` is at least 60 or the returned `priority` is
critical. -/
theorem C5_requiresPopup_iff (now : ℤ) (a : Alert) (ra : List Alert)
    (ss : SystemStats) (td : List TrafficSample) (ba : List BlockedAttempt) :
    (analyzeAlert now a ra ss td ba).requiresPopup = true ↔
      (60 ≤ (analyzeAlert now a ra ss td ba).riskScore ∨
        (analyzeAlert now a ra ss td ba).priority = Priority.critical) := by
  simp only [analyzeAlert, Bool.or_eq_true, decide_eq_true_eq]

-- Claim C6

/-- Rewrites `calculateDowntimeRisk` in closed form: the cap-at-95 of
`riskScore × 0.6` plus 30 when resources are critical. -/
lemma calculateDowntimeRisk_eq (s : ℕ) (r : ResourceAnalysis) :
    calculateDowntimeRisk s r =
      min 95 ((s : ℚ) * (6 / 10) + if r.critical then 30 else 0) := by
  unfold calculateDowntimeRisk
  split_ifs <;> · rw [min_comm]; congr 1; ring

/-- C6: for every input, the estimated downtime risk equals
`min(95, riskScore × 0.6 + (30 if the resource analysis is critical else
0))`, and therefore always lies in the interval `[0, 95]`. -/
theorem C6_downtimeRisk (now : ℤ) (a : Alert) (ra : List Alert)
    (ss : SystemStats) (td : List TrafficSample) (ba : List BlockedAttempt) :
    (analyzeAlert now a ra ss td ba).estimatedDowntimeRisk =
      min 95 (((analyzeAlert now a ra ss td ba).riskScore : ℚ) * (6 / 10) +
        if (analyzeSystemResources ss td).critical then 30 else 0) ∧
    0 ≤ (analyzeAlert now a ra ss td ba).estimatedDowntimeRisk ∧
    (analyzeAlert now a ra ss td ba).estimatedDowntimeRisk ≤ 95 := by
  have hb : ∀ (s : ℕ) (r : ResourceAnalysis),
      0 ≤ calculateDowntimeRisk s r ∧ calculateDowntimeRisk s r ≤ 95 := by
    intro s r
    rw [calculateDowntimeRisk_eq]
    constructor
    · have h1 : (0 : ℚ) ≤ (s : ℚ) * (6 / 10) := by positivity
      have h2 : (0 : ℚ) ≤ if r.critical then (30 : ℚ) else 0 := by
        split_ifs <;> norm_num
      exact le_min (by norm_num) (by linarith)
    · exact min_le_left _ _
  simp only [analyzeAlert]
  exact ⟨calculateDowntimeRisk_eq _ _, (hb _ _).1, (hb _ _).2⟩

-- Claim C10

/-- C10: the impact level of every returned assessment is one of low,
medium, high, critical; the documented initial value `minimal` is always
overwritten by `calculateImpactLevel` and never escapes `analyzeAlert`. -/
theorem C10_impactLevel_total (now : ℤ) (a : Alert) (ra : List Alert)
    (ss : SystemStats) (td : List TrafficSample) (ba : List BlockedAttempt) :
    (analyzeAlert now a ra ss td ba).impactLevel ≠ ImpactLevel.minimal ∧
    ((analyzeAlert now a ra ss td ba).impactLevel = ImpactLevel.low ∨
      (analyzeAlert now a ra ss td ba).impactLevel = ImpactLevel.medium ∨
      (analyzeAlert now a ra ss td ba).impactLevel = ImpactLevel.high ∨
      (analyzeAlert now a ra ss td ba).impactLevel = ImpactLevel.critical) := by
  have h : ∀ s : ℕ, calculateImpactLevel s ≠ ImpactLevel.minimal ∧
      (calculateImpactLevel s = ImpactLevel.low ∨
        calculateImpactLevel s = ImpactLevel.medium ∨
        calculateImpactLevel s = ImpactLevel.high ∨
        calculateImpactLevel s = ImpactLevel.critical) := by
    intro s
    unfold calculateImpactLevel
    split_ifs <;> simp
  simp only [analyzeAlert]
  exact h _

-- Claim C4

/-- With empty recent-alert and blocked windows no coordinated attack is
detected. -/
lemma detectCoordinatedAttack_nil (now : ℤ) (a : Alert) :
    detectCoordinatedAttack now a [] [] = false := by
  simp [detectCoordinatedAttack]


/-- C4: for every timestamp, clock reading and id, the scenario-A input — a
high-severity "DDoS Attack" alert with message "system down", no recent
alerts, 100 active connections, empty traffic and blocked windows — is
assessed at risk score 80 (25 severity + 30 critical type + 25 system-wide
keyword), impact level critical, priority critical, popup required. -/
theorem C4_scenarioA (i : ℕ) (t now : ℤ) :
    (analyzeAlert now
        { id := i, type := ("DDoS Attack").data, message := ("system down").data,
          severity := ("high").data, timestamp := t }
        [] { activeConnections := 100 } [] []).riskScore = 80 ∧
    (analyzeAlert now
        { id := i, type := ("DDoS Attack").data, message := ("system down").data,
          severity := ("high").data, timestamp := t }
        [] { activeConnections := 100 } [] []).impactLevel = ImpactLevel.critical ∧
    (analyzeAlert now
        { id := i, type := ("DDoS Attack").data, message := ("system down").data,
          severity := ("high").data, timestamp := t }
        [] { activeConnections := 100 } [] []).priority = Priority.critical ∧
    (analyzeAlert now
        { id := i, type := ("DDoS Attack").data, message := ("system down").data,
          severity := ("high").data, timestamp := t }
        [] { activeConnections := 100 } [] []).requiresPopup = true := by
  refine ⟨?_, ?_, ?_, ?_⟩ <;>
    · simp only [analyzeAlert, detectCoordinatedAttack_nil]
      rfl

-- Claim C3

/-- A high-severity alert of a non-critical type with a neutral message. -/
def probeAlert : Alert :=
  { id := 1, type := ("Intrusion Attempt").data, message := ("probe").data,
    severity := ("high").data, timestamp := 0 }

/-- Three further high-severity alerts of the same type, all created at
time 0. -/
def oldAlerts : List Alert :=
  [ { probeAlert with id := 2 }, { probeAlert with id := 3 },
    { probeAlert with id := 4 } ]

/-- C3 (counterexample): the classifier reads `Date.now()`, so two calls
with identical five arguments made at clock readings 0 and 1000000 return
different assessments — at time 0 the three timestamp-0 context alerts are
inside the 5-minute window (high-severity burst +20, same-type burst +20),
at time 1000000 they are not. -/
theorem C3_counterexample :
    (analyzeAlert 0 probeAlert oldAlerts stats100 [] []).riskScore = 65 ∧
    (analyzeAlert 1000000 probeAlert oldAlerts stats100 [] []).riskScore = 25 ∧
    (analyzeAlert 0 probeAlert oldAlerts stats100 [] []).riskScore ≠
      (analyzeAlert 1000000 probeAlert oldAlerts stats100 [] []).riskScore := by
  refine ⟨by decide, by decide, by decide⟩

/-- Filtered lengths agree when the predicates agree pointwise across a
map. -/
lemma length_filter_map_eq {α β : Type} (f : α → β) (p : β → Bool) (q : α → Bool)
    (h : ∀ a, p (f a) = q a) (l : List α) :
    ((l.map f).filter p).length = (l.filter q).length := by
  induction l with
  | nil => rfl
  | cons a as ih =>
    simp only [List.map_cons, List.filter_cons, h a]
    split_ifs <;> simp [ih]

/-- Shifting all alert timestamps together with the clock preserves the
high-severity recency count. -/
lemma highSeverityCount_shift (d now : ℤ) (ra : List Alert) :
    highSeverityCount (now + d) (ra.map (shiftAlert d)) = highSeverityCount now ra := by
  unfold highSeverityCount
  refine length_filter_map_eq _ _ _ (fun a => ?_) ra
  simp only [shiftAlert]
  congr 1
  rw [decide_eq_decide]
  omega

/-- Shifting all blocked-attempt timestamps together with the clock
preserves the recent-blocked count. -/
lemma recentBlockedCount_shift (d now : ℤ) (ba : List BlockedAttempt) :
    recentBlockedCount (now + d) (ba.map (shiftBlocked d)) = recentBlockedCount now ba := by
  unfold recentBlockedCount
  refine length_filter_map_eq _ _ _ (fun b => ?_) ba
  simp only [shiftBlocked]
  rw [decide_eq_decide]
  omega

/-- Shifting preserves the same-type burst flag. -/
lemma detectAlertBurst_shift (d now : ℤ) (a : Alert) (ra : List Alert) :
    detectAlertBurst (now + d) (shiftAlert d a) (ra.map (shiftAlert d)) =
      detectAlertBurst now a ra := by
  have hlen :
      (List.filter (fun x : Alert =>
          x.type == (shiftAlert d a).type &&
            decide (now + d - x.timestamp < criticalTimeWindow))
        (ra.map (shiftAlert d))).length =
      (List.filter (fun x : Alert =>
          x.type == a.type && decide (now - x.timestamp < criticalTimeWindow)) ra).length := by
    refine length_filter_map_eq _ _ _ (fun x => ?_) ra
    simp only [shiftAlert]
    congr 1
    rw [decide_eq_decide]
    omega
  simp only [detectAlertBurst, hlen]

/-- Shifting preserves the coordinated-attack flag. -/
lemma detectCoordinatedAttack_shift (d now : ℤ) (a : Alert) (ra : List Alert)
    (ba : List BlockedAttempt) :
    detectCoordinatedAttack (now + d) (shiftAlert d a) (ra.map (shiftAlert d))
        (ba.map (shiftBlocked d)) =
      detectCoordinatedAttack now a ra ba := by
  have hsec :
      (List.filter (fun x : Alert =>
          (x.severity == ("high").data || x.severity == ("medium").data) &&
            decide (now + d - criticalTimeWindow < x.timestamp))
        (ra.map (shiftAlert d))).length =
      (List.filter (fun x : Alert =>
          (x.severity == ("high").data || x.severity == ("medium").data) &&
            decide (now - criticalTimeWindow < x.timestamp)) ra).length := by
    refine length_filter_map_eq _ _ _ (fun x => ?_) ra
    simp only [shiftAlert]
    congr 1
    rw [decide_eq_decide]
    omega
  have hblk :
      (List.filter (fun b : BlockedAttempt =>
          decide (now + d - criticalTimeWindow < b.timestamp))
        (ba.map (shiftBlocked d))).length =
      (List.filter (fun b : BlockedAttempt =>
          decide (now - criticalTimeWindow < b.timestamp)) ba).length := by
    refine length_filter_map_eq _ _ _ (fun b => ?_) ba
    simp only [shiftBlocked]
    rw [decide_eq_decide]
    omega
  simp only [detectCoordinatedAttack, hsec, hblk]

/-- Shifting does not change the alert type, so the critical-type check is
unaffected. -/
lemma isCriticalAlertType_shift (d : ℤ) (a : Alert) :
    isCriticalAlertType (shiftAlert d a) = isCriticalAlertType a := rfl

/-- Shifting does not change the alert message, so the system-wide-impact
check is unaffected. -/
lemma hasSystemWideImpact_shift (d : ℤ) (a : Alert) :
    hasSystemWideImpact (shiftAlert d a) = hasSystemWideImpact a := rfl

/-- Shifting preserves the accumulated risk-factor total. -/
lemma calculateRiskFactors_shift (d now : ℤ) (a : Alert) (ra : List Alert)
    (ss : SystemStats) (td : List TrafficSample) (ba : List BlockedAttempt) :
    calculateRiskFactors (now + d) (shiftAlert d a) (ra.map (shiftAlert d)) ss td
        (ba.map (shiftBlocked d)) =
      calculateRiskFactors now a ra ss td ba := by
  simp only [calculateRiskFactors, highSeverityCount_shift, recentBlockedCount_shift,
    shiftAlert]

/-- C3 (amended): `analyzeAlert` is a pure, deterministic function of its
five arguments together with the current clock reading (it reads
`Date.now()`, so identical arguments at different clock times may classify
differently); moreover it depends on the clock only through the ages
`now - timestamp`: translating every alert and blocked-attempt timestamp
and the clock by the same offset yields the identical assessment. -/
theorem C3_clock_translation_invariance (d now : ℤ) (a : Alert) (ra : List Alert)
    (ss : SystemStats) (td : List TrafficSample) (ba : List BlockedAttempt) :
    analyzeAlert (now + d) (shiftAlert d a) (ra.map (shiftAlert d)) ss td
        (ba.map (shiftBlocked d)) =
      analyzeAlert now a ra ss td ba := by
  simp only [analyzeAlert, calculateRiskFactors_shift, detectAlertBurst_shift,
    detectCoordinatedAttack_shift, isCriticalAlertType_shift, hasSystemWideImpact_shift]

-- Coordinator helper lemmas

/-- The id just appended to the seen-set survives trimming (trimming drops
only from the front). -/
lemma mem_trimProcessedIds_append (l : List ℕ) (i : ℕ) :
    i ∈ trimProcessedIds (l ++ [i]) := by
  unfold trimProcessedIds
  split_ifs with h
  · have hk : (l ++ [i]).length - 100 ≤ l.length := by
      simp only [List.length_append, List.length_singleton] at h ⊢
      omega
    rw [List.drop_append_of_le_length hk]
    simp
  · simp

/-- Trimming bounds the seen-set by 100 whenever the input has at most 101
entries. -/
lemma trimProcessedIds_length_le (l : List ℕ) (h : l.length ≤ 101) :
    (trimProcessedIds l).length ≤ 100 := by
  unfold trimProcessedIds
  split_ifs with hlen
  · rw [List.length_drop]
    omega
  · omega

/-- A delivery whose newest alert is already in the seen-set leaves the
Coordinator state untouched. -/
lemma coordStep_skip (st : CoordState) (env : Env) (latest : Alert)
    (rest : List Alert) (halerts : env.alerts = latest :: rest)
    (hmem : latest.id ∈ st.processedAlertIds) :
    coordStep st env = st := by
  simp only [coordStep, halerts]
  rw [if_pos hmem]

/-- A delivery whose newest alert is unseen classifies it, appends its id to
the seen-set (trimmed) and prepends its notification (truncated at 50). -/
lemma coordStep_run (st : CoordState) (env : Env) (latest : Alert)
    (rest : List Alert) (halerts : env.alerts = latest :: rest)
    (hmem : latest.id ∉ st.processedAlertIds) :
    coordStep st env =
      { processedAlertIds := trimProcessedIds (st.processedAlertIds ++ [latest.id])
        notifications := (newNotification env latest :: st.notifications).take 50 } := by
  simp only [coordStep, halerts]
  rw [if_neg hmem]

-- Claim C7

/-- C7: per delivery, an already-seen newest alert id leaves the state
unchanged (no new classification, no new notification); a second identical
delivery is always a no-op; and processing the same alert id twice from a
state that has not seen it leaves exactly one matching notification in the
list. -/
theorem C7_idempotent_processing (st : CoordState) (env : Env) (latest : Alert)
    (rest : List Alert) (halerts : env.alerts = latest :: rest) :
    (latest.id ∈ st.processedAlertIds → coordStep st env = st) ∧
    coordStep (coordStep st env) env = coordStep st env ∧
    (latest.id ∉ st.processedAlertIds →
      (∀ n ∈ st.notifications, n.alert.id ≠ latest.id) →
      ((coordStep (coordStep st env) env).notifications.countP
          fun n => n.alert.id == latest.id) = 1) := by
  have hsecond : coordStep (coordStep st env) env = coordStep st env := by
    by_cases hmem : latest.id ∈ st.processedAlertIds
    · rw [coordStep_skip st env latest rest halerts hmem]
      exact coordStep_skip st env latest rest halerts hmem
    · rw [coordStep_run st env latest rest halerts hmem]
      exact coordStep_skip _ env latest rest halerts (mem_trimProcessedIds_append _ _)
  refine ⟨fun hmem => coordStep_skip st env latest rest halerts hmem, hsecond, ?_⟩
  intro hmem hnone
  rw [hsecond, coordStep_run st env latest rest halerts hmem]
  have h50 : (newNotification env latest :: st.notifications).take 50 =
      newNotification env latest :: st.notifications.take 49 := rfl
  show ((newNotification env latest :: st.notifications).take 50).countP
      (fun n => n.alert.id == latest.id) = 1
  rw [h50, List.countP_cons]
  have hpnew : ((newNotification env latest).alert.id == latest.id) = true := by
    have halert : (newNotification env latest).alert = latest := rfl
    rw [halert]
    simp
  have hzero : (st.notifications.take 49).countP
      (fun n => n.alert.id == latest.id) = 0 := by
    rw [List.countP_eq_zero]
    intro n hn
    simp only [beq_iff_eq]
    exact hnone n (List.mem_of_mem_take hn)
  rw [hzero, hpnew]
  rfl

/-- A fresh Coordinator state: no notifications, no seen ids. -/
def emptyState : CoordState := { notifications := [], processedAlertIds := [] }

/-- A delivery carrying one unseen alert and empty context windows. -/
def envA : Env :=
  { now := 0, alerts := [lowAlert], trafficData := [], blockedAttempts := [],
    systemStats := stats100 }

/-- Witness for C7: delivering the same alert twice to a fresh Coordinator
leaves exactly one matching notification. -/
theorem C7_witness :
    ((coordStep (coordStep emptyState envA) envA).notifications.countP
        fun n => n.alert.id == lowAlert.id) = 1 :=
  (C7_idempotent_processing emptyState envA lowAlert [] rfl).2.2
    (by simp [emptyState]) (by simp [emptyState])

-- Claim C8

/-- C8: a Coordinator step never grows the notification list beyond 50
entries, and when a 51st distinct alert is processed from a full list the
new notification is prepended and the evicted entry is the last of the
newest-first list — the oldest-inserted notification, never chosen by
severity. -/
theorem C8_notification_cap_fifo (st : CoordState) (env : Env) :
    (st.notifications.length ≤ 50 → (coordStep st env).notifications.length ≤ 50) ∧
    (∀ latest rest, env.alerts = latest :: rest →
      latest.id ∉ st.processedAlertIds →
      st.notifications.length = 50 →
      (coordStep st env).notifications =
        newNotification env latest :: st.notifications.dropLast) := by
  constructor
  · intro hle
    rcases halerts : env.alerts with _ | ⟨latest, rest⟩
    · have h0 : coordStep st env = st := by simp only [coordStep, halerts]
      rw [h0]
      exact hle
    · by_cases hmem : latest.id ∈ st.processedAlertIds
      · rw [coordStep_skip st env latest rest halerts hmem]
        exact hle
      · rw [coordStep_run st env latest rest halerts hmem]
        show ((newNotification env latest :: st.notifications).take 50).length ≤ 50
        rw [List.length_take]
        omega
  · intro latest rest halerts hmem hlen
    have h2 : st.notifications.dropLast = st.notifications.take 49 := by
      rw [List.dropLast_eq_take, hlen]
    rw [coordStep_run st env latest rest halerts hmem, h2]
    rfl

/-- An alert unrelated to the witness alert id. -/
def dummyAlert : Alert :=
  { id := 999, type := ("Port Scan").data, message := ("x").data,
    severity := ("low").data, timestamp := 0 }

/-- A rounded analysis record for the pre-filled notification list. -/
def dummyAnalysis : DisplayAnalysis :=
  { riskScore := 5, priority := Priority.low, impactLevel := ImpactLevel.low,
    requiresPopup := false, estimatedDowntimeRisk := 3, analyzedAt := 0 }

/-- A notification unrelated to the witness alert id. -/
def dummyNotification : Notification :=
  { alert := dummyAlert, analysis := dummyAnalysis, read := false }

/-- A Coordinator state whose notification list is full (50 entries). -/
def fullState : CoordState :=
  { notifications := List.replicate 50 dummyNotification, processedAlertIds := [] }

/-- Witness for C8: on a full 50-entry list, processing a fresh alert keeps
the cap and evicts exactly the last (oldest) entry. -/
theorem C8_witness :
    fullState.notifications.length = 50 ∧
    (coordStep fullState envA).notifications.length ≤ 50 ∧
    (coordStep fullState envA).notifications =
      newNotification envA lowAlert :: fullState.notifications.dropLast :=
  ⟨by simp [fullState],
    (C8_notification_cap_fifo fullState envA).1 (by simp [fullState]),
    (C8_notification_cap_fifo fullState envA).2 lowAlert [] rfl
      (by simp [fullState]) (by simp [fullState])⟩

-- Claim C9

/-- C9: a Coordinator step (which includes the trimming of the seen-set)
never grows the seen-set beyond 100 ids, and when a 101st distinct id is
added to a full seen-set the trimmed set is exactly the previous 100 minus
its oldest entry plus the new id — the 100 most-recently-added ids. -/
theorem C9_seenset_cap_trim (st : CoordState) (env : Env) :
    (st.processedAlertIds.length ≤ 100 →
      (coordStep st env).processedAlertIds.length ≤ 100) ∧
    (∀ latest rest, env.alerts = latest :: rest →
      latest.id ∉ st.processedAlertIds →
      st.processedAlertIds.length = 100 →
      (coordStep st env).processedAlertIds =
        st.processedAlertIds.drop 1 ++ [latest.id]) := by
  constructor
  · intro hle
    rcases halerts : env.alerts with _ | ⟨latest, rest⟩
    · have h0 : coordStep st env = st := by simp only [coordStep, halerts]
      rw [h0]
      exact hle
    · by_cases hmem : latest.id ∈ st.processedAlertIds
      · rw [coordStep_skip st env latest rest halerts hmem]
        exact hle
      · rw [coordStep_run st env latest rest halerts hmem]
        refine trimProcessedIds_length_le _ ?_
        simp only [List.length_append, List.length_singleton]
        omega
  · intro latest rest halerts hmem hlen
    rw [coordStep_run st env latest rest halerts hmem]
    show trimProcessedIds (st.processedAlertIds ++ [latest.id]) =
      st.processedAlertIds.drop 1 ++ [latest.id]
    unfold trimProcessedIds
    have hc : 100 < (st.processedAlertIds ++ [latest.id]).length := by
      simp only [List.length_append, List.length_singleton]
      omega
    rw [if_pos hc]
    have hk : (st.processedAlertIds ++ [latest.id]).length - 100 = 1 := by
      simp only [List.length_append, List.length_singleton]
      omega
    rw [hk, List.drop_append_of_le_length (by omega)]

/-- A fresh alert whose id is outside the full seen-set below. -/
def freshAlert : Alert :=
  { id := 555, type := ("Port Scan").data, message := ("scan detected").data,
    severity := ("low").data, timestamp := 0 }

/-- A Coordinator state whose seen-set is full: the ids 0..99. -/
def seenState : CoordState :=
  { notifications := [], processedAlertIds := List.range 100 }

/-- A delivery carrying one alert not in the full seen-set. -/
def envB : Env :=
  { now := 0, alerts := [freshAlert], trafficData := [], blockedAttempts := [],
    systemStats := stats100 }

/-- Witness for C9: adding a 101st distinct id to a full 100-id seen-set
keeps the cap and drops exactly the oldest id. -/
theorem C9_witness :
    seenState.processedAlertIds.length = 100 ∧
    (coordStep seenState envB).processedAlertIds.length ≤ 100 ∧
    (coordStep seenState envB).processedAlertIds =
      seenState.processedAlertIds.drop 1 ++ [freshAlert.id] :=
  ⟨by simp [seenState],
    (C9_seenset_cap_trim seenState envB).1 (by simp [seenState]),
    (C9_seenset_cap_trim seenState envB).2 freshAlert [] rfl
      (by decide) (by simp [seenState])⟩

end
